import Mathlib

/-!
# Verification of the Game-of-Life core (2D toroidal engine, 3D shell engine,
history manager, geometry projector)

Shallow embedding of the simulation core of the repository:

* `src/src/utils/gridGeometry.ts` — `getIndex`, `getCoords`, `isShell`,
  `calculateCellTransform` (position part).
* `src/src/components/GameOfLife.tsx` — 2D toroidal rule engine (`runStep`),
  history (`addToHistory`, `handleUndo`), `handleSizeChange`.
* `src/unnamed/part_001` (an earlier revision of `GameOfLife.tsx`) —
  destructive `handleScrub`.
* `src/src/components/GameOfLife3D.tsx` — 3D shell rule engine (`runStep`),
  `handleToggleCell`.

JavaScript numbers holding cell ages are modelled as `Nat` (the program only
ever stores non-negative integer ages); the generation counter, which is
subtracted from, is modelled as `Int`; coordinates offset by -1/0/+1 before a
wrap or bounds test are computed in `Int` exactly as the source does.
-/

/-! ## Lattice addressing and shell classification (`gridGeometry.ts`) -/

/-- `getIndex` of `gridGeometry.ts:3`: `x + y * width + z * width * height`. -/
def getIndex (x y z width height : Nat) : Nat :=
  x + y * width + z * width * height

/-- `getCoords` of `gridGeometry.ts:5-11`: recovers `(x, y, z)` from a linear
index by `Math.floor` division and remainder (Nat division/mod coincide with
the JavaScript operations for the non-negative arguments the program uses). -/
def getCoords (index width height : Nat) : Nat × Nat × Nat :=
  let z := index / (width * height)
  let rem := index % (width * height)
  let y := rem / width
  let x := rem % width
  (x, y, z)

/-- `isShell` of `gridGeometry.ts:13-15`: a coordinate is on the cube shell iff
some axis sits at its minimum 0 or maximum `dim - 1`. -/
def isShell (x y z width height depth : Nat) : Bool :=
  x == 0 || x == width - 1 || y == 0 || y == height - 1 ||
  z == 0 || z == depth - 1

theorem addr_bound {x y w h : Nat} (hx : x < w) (hy : y < h) :
    x + y * w < w * h := by
  have h2 : (y + 1) * w ≤ h * w := Nat.mul_le_mul_right w hy
  rw [Nat.succ_mul] at h2
  have e : w * h = h * w := Nat.mul_comm w h
  omega

/-- Round-trip: `getCoords (getIndex x y z) = (x, y, z)` for in-range
coordinates. -/
theorem getCoords_getIndex (x y z w h : Nat) (hx : x < w) (hy : y < h) :
    getCoords (getIndex x y z w h) w h = (x, y, z) := by
  have hw : 0 < w := by omega
  have hwh : 0 < w * h := Nat.mul_pos hw (by omega)
  have key : x + y * w < w * h := addr_bound hx hy
  have e1 : getIndex x y z w h = (x + y * w) + z * (w * h) := by
    unfold getIndex; ring
  unfold getCoords
  dsimp only
  rw [e1]
  rw [Nat.add_mul_div_right _ _ hwh, Nat.add_mul_mod_self_right]
  rw [Nat.div_eq_of_lt key, Nat.mod_eq_of_lt key]
  rw [Nat.add_mul_div_right _ _ hw, Nat.add_mul_mod_self_right]
  rw [Nat.div_eq_of_lt hx, Nat.mod_eq_of_lt hx]
  simp

/-- In-range coordinates give an in-range linear index. -/
theorem getIndex_lt (x y z w h d : Nat) (hx : x < w) (hy : y < h)
    (hz : z < d) : getIndex x y z w h < w * h * d := by
  have key : x + y * w < w * h := addr_bound hx hy
  have h2 : (z + 1) * (w * h) ≤ d * (w * h) :=
    Nat.mul_le_mul_right (w * h) hz
  rw [Nat.succ_mul] at h2
  have e1 : getIndex x y z w h = (x + y * w) + z * (w * h) := by
    unfold getIndex; ring
  have e2 : w * h * d = d * (w * h) := by ring
  omega

/-- Linear indices of in-range coordinates are distinct for distinct
coordinates. -/
theorem getIndex_inj {x y z x' y' z' w h : Nat}
    (hx : x < w) (hy : y < h) (hx' : x' < w) (hy' : y' < h)
    (heq : getIndex x y z w h = getIndex x' y' z' w h) :
    x = x' ∧ y = y' ∧ z = z' := by
  have h1 := getCoords_getIndex x y z w h hx hy
  have h2 := getCoords_getIndex x' y' z' w h hx' hy'
  rw [heq] at h1
  have h3 : ((x, y, z) : Nat × Nat × Nat) = (x', y', z') := h1.symm.trans h2
  simp only [Prod.mk.injEq] at h3
  exact ⟨h3.1, h3.2.1, h3.2.2⟩

/-! ## Rule sets -/

/-- `RuleSet` of `GameOfLife.tsx:8-12` / `GameOfLife3D.tsx:19-23`: a name and
the born/survive neighbor-count sets (JS arrays of integers). -/
structure RuleSet where
  name : String
  born : List Nat
  survive : List Nat

/-- `RULE_SETS[0]` (`GameOfLife.tsx:15`). -/
def conwayRule : RuleSet :=
  { name := "Conway (Standard)", born := [3], survive := [2, 3] }

/-- `RULE_SETS[4]` (`GameOfLife.tsx:19`). -/
def lifeWithoutDeathRule : RuleSet :=
  { name := "Life without Death", born := [3],
    survive := [0, 1, 2, 3, 4, 5, 6, 7, 8] }

/-! ## 3D shell rule engine (`GameOfLife3D.tsx`)

The 3D lattice is a `Uint8Array` addressed by `getIndex`; we embed it as a
function from linear index to age. The component fixes `WIDTH = HEIGHT =
DEPTH = 32`; the embedding keeps the dimensions as parameters (exactly as the
`gridGeometry.ts` helpers do) and the component's engine is the instance at
`w = h = d = 32`. -/

/-- A 3D lattice: linear index to age. -/
def Grid3 := Nat → Nat

/-- The 27 `(dx, dy, dz)` offsets enumerated by the triple loop in
`GameOfLife3D.tsx:463-471` (`dx` outermost, `dz` innermost); the body skips
`(0,0,0)`. -/
def mooreDeltas : List (Int × Int × Int) :=
  [(-1, -1, -1), (-1, -1, 0), (-1, -1, 1),
   (-1, 0, -1), (-1, 0, 0), (-1, 0, 1),
   (-1, 1, -1), (-1, 1, 0), (-1, 1, 1),
   (0, -1, -1), (0, -1, 0), (0, -1, 1),
   (0, 0, -1), (0, 0, 0), (0, 0, 1),
   (0, 1, -1), (0, 1, 0), (0, 1, 1),
   (1, -1, -1), (1, -1, 0), (1, -1, 1),
   (1, 0, -1), (1, 0, 0), (1, 0, 1),
   (1, 1, -1), (1, 1, 0), (1, 1, 1)]

/-- One delta of the neighbor loop of `GameOfLife3D.tsx:463-599`: skip
`(0,0,0)`, skip offsets outside `[0,w) x [0,h) x [0,d)` (strict bounds, no
wrap), then count the neighbor iff it is itself a shell coordinate and its
age is positive. -/
def neighborHit3D (g : Grid3) (w h d x y z : Nat)
    (delta : Int × Int × Int) : Bool :=
  let dx := delta.1
  let dy := delta.2.1
  let dz := delta.2.2
  if dx = 0 ∧ dy = 0 ∧ dz = 0 then false
  else
    let nx := (x : Int) + dx
    let ny := (y : Int) + dy
    let nz := (z : Int) + dz
    if nx < 0 ∨ (w : Int) ≤ nx ∨ ny < 0 ∨ (h : Int) ≤ ny ∨
        nz < 0 ∨ (d : Int) ≤ nz then false
    else
      isShell nx.toNat ny.toNat nz.toNat w h d &&
        decide (0 < g (getIndex nx.toNat ny.toNat nz.toNat w h))

/-- The accumulated `neighbors` counter of the triple loop (a count of the
deltas on which the loop body increments). -/
def countNeighbors3D (g : Grid3) (w h d x y z : Nat) : Nat :=
  mooreDeltas.countP (neighborHit3D g w h d x y z)

/-- One delta counted the way the claim describes it: in-bounds and live,
with no shell gating. Modelled from the spec: "neighbor coordinates outside
[0,W)x[0,H)x[0,D) are simply excluded from the count (no wraparound)". -/
def boundedLiveHit3D (g : Grid3) (w h d x y z : Nat)
    (delta : Int × Int × Int) : Bool :=
  let dx := delta.1
  let dy := delta.2.1
  let dz := delta.2.2
  if dx = 0 ∧ dy = 0 ∧ dz = 0 then false
  else
    let nx := (x : Int) + dx
    let ny := (y : Int) + dy
    let nz := (z : Int) + dz
    if nx < 0 ∨ (w : Int) ≤ nx ∨ ny < 0 ∨ (h : Int) ≤ ny ∨
        nz < 0 ∨ (d : Int) ≤ nz then false
    else
      decide (0 < g (getIndex nx.toNat ny.toNat nz.toNat w h))

/-- Neighbor count as described by the claim (number of live cells among the
in-bounds Moore neighbors). -/
def boundedLiveCount3D (g : Grid3) (w h d x y z : Nat) : Nat :=
  mooreDeltas.countP (boundedLiveHit3D g w h d x y z)

/-- `runStep` of `GameOfLife3D.tsx:427-635`: the next lattice is a fresh
zeroed buffer; the loop visits every in-range coordinate, skips non-shell
coordinates (`GameOfLife3D.tsx:445`, leaving their slot at 0) and otherwise
writes the survive/born result with age saturation `Math.min(age + 1, 255)`.
Since the loop writes each slot `getIndex x y z` exactly once, the buffer is
embedded pointwise through `getCoords` (the inverse of `getIndex`). -/
def runStep3D (w h d : Nat) (rule : RuleSet) (g : Grid3) : Grid3 :=
  fun i =>
    if i < w * h * d then
      let c := getCoords i w h
      if isShell c.1 c.2.1 c.2.2 w h d then
        let idx := getIndex c.1 c.2.1 c.2.2 w h
        let n := countNeighbors3D g w h d c.1 c.2.1 c.2.2
        if 0 < g idx then
          if rule.survive.contains n then min (g idx + 1) 255 else 0
        else
          if rule.born.contains n then 1 else 0
      else 0
    else 0

/-- `handleToggleCell` of `GameOfLife3D.tsx:681-689`: a non-shell coordinate
is rejected up front ("Prevent painting in void"); otherwise the slot at
`getIndex x y z` flips between 0 and 1 on a copy of the lattice. -/
def handleToggleCell (w h d : Nat) (g : Grid3) (x y z : Nat) : Grid3 :=
  if isShell x y z w h d then
    fun j =>
      if j = getIndex x y z w h then
        if 0 < g (getIndex x y z w h) then 0 else 1
      else g j
  else g

/-- Interior (non-shell) in-range coordinates all hold age 0. -/
def InteriorDead (w h d : Nat) (g : Grid3) : Prop :=
  ∀ x < w, ∀ y < h, ∀ z < d, isShell x y z w h d = false →
    g (getIndex x y z w h) = 0

instance (w h d : Nat) (g : Grid3) : Decidable (InteriorDead w h d g) := by
  unfold InteriorDead
  infer_instance

/-- The lattice with every non-shell slot forced to 0; reading the step's
neighbor counter through this mask is unchanged, which expresses that the
counter never reads interior slots as a source of liveness. -/
def maskShell (w h d : Nat) (g : Grid3) : Grid3 :=
  fun i =>
    if i < w * h * d then
      let c := getCoords i w h
      if isShell c.1 c.2.1 c.2.2 w h d then g i else 0
    else 0

theorem countP_congr_on {α : Type} (l : List α) (p q : α → Bool)
    (hpq : ∀ a ∈ l, p a = q a) : l.countP p = l.countP q := by
  induction l with
  | nil => rfl
  | cons a l ih =>
    rw [List.countP_cons, List.countP_cons, hpq a (List.mem_cons_self a l),
      ih fun b hb => hpq b (List.mem_cons_of_mem a hb)]

/-- On a lattice whose interior is dead, the shell-gated neighbor counter of
the source agrees with the plain bounded live count. -/
theorem countNeighbors3D_eq_boundedLiveCount3D
    (w h d : Nat) (g : Grid3) (x y z : Nat)
    (hg : InteriorDead w h d g) :
    countNeighbors3D g w h d x y z = boundedLiveCount3D g w h d x y z := by
  unfold countNeighbors3D boundedLiveCount3D
  apply countP_congr_on
  intro delta _
  unfold neighborHit3D boundedLiveHit3D
  dsimp only
  split
  · rfl
  · split
    · rfl
    · rename_i hbnd
      push_neg at hbnd
      obtain ⟨h1, h2, h3, h4, h5, h6⟩ := hbnd
      set nx := (x : Int) + delta.1 with hnx
      set ny := (y : Int) + delta.2.1 with hny
      set nz := (z : Int) + delta.2.2 with hnz
      have hxw : nx.toNat < w := by omega
      have hyh : ny.toNat < h := by omega
      have hzd : nz.toNat < d := by omega
      cases hs : isShell nx.toNat ny.toNat nz.toNat w h d with
      | true => rw [Bool.true_and]
      | false =>
        have hz0 : g (getIndex nx.toNat ny.toNat nz.toNat w h) = 0 :=
          hg nx.toNat hxw ny.toNat hyh nz.toNat hzd hs
        rw [hz0]
        simp

/-! ## 2D toroidal rule engine (`GameOfLife.tsx`) -/

/-- `GridType` of `GameOfLife.tsx:6`: `number[][]`, row-major, entry = age. -/
def GridType := List (List Nat)

instance : DecidableEq GridType := by
  unfold GridType
  infer_instance

/-- `generateEmptyGrid` of `GameOfLife.tsx:57-59`:
`Array.from({ length: rows }, () => Array(cols).fill(0))`. `Array.from`
clamps a non-positive `rows` to 0, returning the empty list without ever
invoking the row builder (so `cols` is not even looked at); with a positive
`rows`, each row is built by `Array(cols)`, which throws a `RangeError` for
a negative `cols` — the throw is modelled as `none`. -/
def generateEmptyGrid (rows cols : Int) : Option GridType :=
  if rows ≤ 0 then some []
  else if cols < 0 then none
  else some (List.replicate rows.toNat (List.replicate cols.toNat 0))

/-- The 8 `(di, dk)` Moore offsets `OPERATIONS` of `GameOfLife.tsx:50-53`,
in source order. -/
def OPERATIONS : List (Int × Int) :=
  [(0, 1), (0, -1), (1, -1), (-1, 1), (1, 1), (-1, -1), (1, 0), (-1, 0)]

/-- Cell read `g[r][c]` (always in bounds where the program reads it; the
default 0 is never hit under the rectangularity hypotheses used below). -/
def cellAt (g : GridType) (r c : Nat) : Nat :=
  (g.getD r []).getD c 0

/-- The wrapped index `(i + x + len) % len` of `GameOfLife.tsx:328-329`
(the operand is non-negative, so JS remainder = mathematical mod). -/
def wrapIdx (i : Nat) (delta : Int) (len : Nat) : Nat :=
  (((i : Int) + delta + len) % len).toNat

/-- The `neighbors` counter of `GameOfLife.tsx:325-333`: the number of the 8
wrapped Moore offsets at which the previous lattice holds a live (age > 0)
cell. -/
def neighborCount2D (g : GridType) (i k : Nat) : Nat :=
  OPERATIONS.countP fun dik =>
    decide (0 < cellAt g (wrapIdx i dik.1 g.length)
      (wrapIdx k dik.2 (g.headD []).length))

/-- The lattice transformation of `runStep` (`GameOfLife.tsx:306-369`):
`newGrid` starts as a copy of `g` and every `(i, k)` with `i < rows`,
`k < cols` is overwritten from the immutable read of `g`: a live cell dies
(0) unless its count is in `survive`, in which case it ages by 1 (no cap);
a dead cell is born (age 1) iff its count is in `born`, otherwise it keeps
its copied value. -/
def stepGrid (g : GridType) (rule : RuleSet) : GridType :=
  (List.range g.length).map fun i =>
    (List.range (g.headD []).length).map fun k =>
      let n := neighborCount2D g i k
      let v := cellAt g i k
      if 0 < v then
        if rule.survive.contains n then v + 1 else 0
      else
        if rule.born.contains n then 1 else v

/-- The component state touched by the embedded handlers: `gridRef`,
`historyRef`, `playbackIndex` and the `generation` counter of
`GameOfLife.tsx:125-153`. -/
structure GameState where
  grid : GridType
  history : List GridType
  playbackIndex : Option Nat
  generation : Int

/-- The capped push of `addToHistory` (`GameOfLife.tsx:298-302`): deep-copy
and append, then `shift()` out the oldest frame if the length exceeds 100. -/
def pushFrame (hist : List GridType) (g : GridType) : List GridType :=
  let h' := hist ++ [g]
  if 100 < h'.length then h'.tail else h'

/-- `addToHistory` of `GameOfLife.tsx:292-304`: with an active preview index
the buffer is first truncated to `slice(0, playbackIndex)` and the preview
pointer cleared; then the frame is pushed with FIFO eviction. -/
def addToHistory (s : GameState) (g : GridType) : GameState :=
  match s.playbackIndex with
  | some p =>
    { s with history := pushFrame (s.history.take p) g, playbackIndex := none }
  | none => { s with history := pushFrame s.history g }

/-- `runStep` of `GameOfLife.tsx:306-369` at state level: bail out on an
empty lattice, push the current lattice into history, replace the lattice by
`stepGrid`, and increment the generation counter. -/
def runStep2D (s : GameState) (rule : RuleSet) : GameState :=
  if s.grid.length = 0 then s
  else
    let s' := addToHistory s s.grid
    { s' with grid := stepGrid s.grid rule, generation := s'.generation + 1 }

/-- `handleUndo` of `GameOfLife.tsx:416-428`: with a non-empty history, pop
the most recent frame into the current lattice, decrement the generation
counter (clamped at 0) and clear the preview pointer. -/
def handleUndo (s : GameState) : GameState :=
  match s.history.getLast? with
  | none => s
  | some prev =>
    { grid := prev, history := s.history.dropLast, playbackIndex := none,
      generation := max 0 (s.generation - 1) }

/-- `handleSizeChange` of `GameOfLife.tsx:485-494`: with no validation of
`r` or `c`, it first clears the history and preview pointer
(`historyRef.current = []`, `setHistoryLength(0)`, `setPlaybackIndex(null)`),
then allocates `generateEmptyGrid(r, c)` into `gridRef` and finally resets
the generation counter. When the allocation throws (`r > 0`, `c < 0`) the
exception escapes after the history is cleared but before the lattice is
replaced or the counter reset, so those two keep their old values. -/
def handleSizeChange (s : GameState) (r c : Int) : GameState :=
  match generateEmptyGrid r c with
  | some g =>
    { grid := g, history := [], playbackIndex := none, generation := 0 }
  | none => { s with history := [], playbackIndex := none }

/-! ## Destructive scrub of the earlier revision (`src/unnamed/part_001`) -/

/-- The state of the `part_001` revision relevant to `handleScrub`: `grid`,
`historyRef` and `generation` (that revision has no preview pointer). -/
structure GameStateV1 where
  grid : GridType
  history : List GridType
  generation : Int

/-- `handleScrub` of `part_001:383-392`: for an in-range index, the buffer is
truncated to `slice(0, index)`, the frame at `index` becomes the current
lattice (deep-copied), and the generation counter drops by
`historyLength - index`, clamped at 0 by `Math.max`. Out-of-range indices
fail the `historyRef.current[index]` truthiness guard and nothing changes. -/
def handleScrub (s : GameStateV1) (index : Nat) : GameStateV1 :=
  if index < s.history.length then
    { grid := s.history.getD index [],
      history := s.history.take index,
      generation :=
        max 0 (s.generation - ((s.history.length : Int) - (index : Int))) }
  else s

/-! ## Geometry projector (`gridGeometry.ts:17-31`, position part) -/

/-- The world position set by `calculateCellTransform`
(`gridGeometry.ts:24-31`): the centering offset is `(width - 1) / 2` and is
applied to all three axes. `height` and `depth` are parameters of the source
function but are not read by the position computation. Exact rational
arithmetic stands in for the float arithmetic (all values involved are
dyadic, so no rounding occurs at the inputs used in the claims). -/
def calculateCellPosition (x y z width height depth spacing : ℚ) :
    ℚ × ℚ × ℚ :=
  let offset := (width - 1) / 2
  ((x - offset) * spacing, (y - offset) * spacing, (z - offset) * spacing)

/-! ## Operation sequences on the 3D lattice (for the containment claim) -/

/-- An interaction on the 3D lattice: one rule-engine step or one cell
toggle (`handleToggleCell` receives coordinates already clamped into range
by `getGridFromPoint`, `GameOfLife3D.tsx:113-124`). -/
inductive Op3D where
  | step (rule : RuleSet)
  | toggle (x y z : Nat)

/-- Coordinates carried by a toggle are in range (the clamp of
`getGridFromPoint` guarantees this for every call the component makes). -/
def OpInRange (w h d : Nat) : Op3D → Prop
  | Op3D.step _ => True
  | Op3D.toggle x y z => x < w ∧ y < h ∧ z < d

instance (w h d : Nat) (op : Op3D) : Decidable (OpInRange w h d op) := by
  cases op <;> simp only [OpInRange] <;> infer_instance

def applyOp3D (w h d : Nat) (g : Grid3) : Op3D → Grid3
  | Op3D.step rule => runStep3D w h d rule g
  | Op3D.toggle x y z => handleToggleCell w h d g x y z

def applyOps3D (w h d : Nat) (ops : List Op3D) (g : Grid3) : Grid3 :=
  ops.foldl (applyOp3D w h d) g

/-! ## Claim theorems -/

/-- C10: toggling a shell cell of the 3D lattice flips exactly the slot
`getIndex x y z` — a dead cell (age 0) becomes age 1, a live cell (age > 0)
becomes age 0 — and every other linear index is unchanged. -/
theorem toggle_frame_effect (w h d : Nat) (g : Grid3) (x y z j : Nat)
    (hs : isShell x y z w h d = true) (hj : j ≠ getIndex x y z w h) :
    handleToggleCell w h d g x y z j = g j ∧
    (g (getIndex x y z w h) = 0 →
      handleToggleCell w h d g x y z (getIndex x y z w h) = 1) ∧
    (0 < g (getIndex x y z w h) →
      handleToggleCell w h d g x y z (getIndex x y z w h) = 0) := by
  refine ⟨?_, ?_, ?_⟩
  · simp [handleToggleCell, hs, hj]
  · intro h0
    simp [handleToggleCell, hs, h0]
  · intro h0
    simp [handleToggleCell, hs, Nat.pos_iff_ne_zero.mp h0]

/-- Lattice used to instantiate the toggle claim: one live cell at linear
index 1 of a 3x3x3 shell. -/
def toggleSample : Grid3 := fun i => if i = 1 then 2 else 0

/-- Witness for `toggle_frame_effect` at `(x,y,z) = (1,0,0)`, `j = 0`,
`w = h = d = 3`. -/
theorem toggle_frame_effect_witness :
    (isShell 1 0 0 3 3 3 = true ∧ (0 : Nat) ≠ getIndex 1 0 0 3 3) ∧
    (handleToggleCell 3 3 3 toggleSample 1 0 0 0 = toggleSample 0 ∧
      (toggleSample (getIndex 1 0 0 3 3) = 0 →
        handleToggleCell 3 3 3 toggleSample 1 0 0 (getIndex 1 0 0 3 3) = 1) ∧
      (0 < toggleSample (getIndex 1 0 0 3 3) →
        handleToggleCell 3 3 3 toggleSample 1 0 0 (getIndex 1 0 0 3 3) = 0)) :=
  ⟨⟨by decide, by decide⟩,
    toggle_frame_effect 3 3 3 toggleSample 1 0 0 0 (by decide) (by decide)⟩

/-- C3: on any lattice whose interior is dead (the invariant the 3D engine
maintains), the neighbor counter of the shell step equals the number of live
cells among the 26 Moore neighbors inside `[0,w) x [0,h) x [0,d)`; offsets
outside the bounds are excluded and nothing wraps around. -/
theorem shell_step_neighbor_count (w h d : Nat) (g : Grid3) (x y z : Nat)
    (hshell : isShell x y z w h d = true) (hg : InteriorDead w h d g) :
    countNeighbors3D g w h d x y z = boundedLiveCount3D g w h d x y z :=
  countNeighbors3D_eq_boundedLiveCount3D w h d g x y z hg

/-- Lattice used to instantiate the neighbor-count claim: live cells at
linear indices 1 and 3 of a 3x3x3 shell (interior index 13 is dead). -/
def countSample : Grid3 := fun i => if i = 1 ∨ i = 3 then 1 else 0

/-- Witness for `shell_step_neighbor_count` at the corner `(0,0,0)` of a
3x3x3 lattice. -/
theorem shell_step_neighbor_count_witness :
    (isShell 0 0 0 3 3 3 = true ∧ InteriorDead 3 3 3 countSample) ∧
    countNeighbors3D countSample 3 3 3 0 0 0 =
      boundedLiveCount3D countSample 3 3 3 0 0 0 :=
  ⟨⟨by decide, by decide⟩,
    shell_step_neighbor_count 3 3 3 countSample 0 0 0 (by decide) (by decide)⟩

/-- C9 counterexample: with `(W,H,D) = (2,4,2)` and spacing 1, the projected
y position of `(0,0,0)` is `-(1/2)` (computed with the x-axis offset
`(W-1)/2`), not the claimed `(0 - (H-1)/2) * 1 = -(3/2)`. -/
theorem position_per_axis_counterexample :
    (calculateCellPosition 0 0 0 2 4 2 1).2.1 ≠ (0 - ((4 : ℚ) - 1) / 2) * 1 := by
  norm_num [calculateCellPosition]

/-- C9 amended: the projector's world position applies the x-axis centering
offset `(width - 1)/2` to all three axes; it agrees with the claimed
per-axis formula exactly when `width = height` and `width = depth` (which
holds for the component's cubic 32x32x32 lattice). -/
theorem position_uses_width_offset (x y z w h d s : ℚ) :
    calculateCellPosition x y z w h d s =
      ((x - (w - 1) / 2) * s, (y - (w - 1) / 2) * s, (z - (w - 1) / 2) * s) ∧
    (w = h → w = d → calculateCellPosition x y z w h d s =
      ((x - (w - 1) / 2) * s, (y - (h - 1) / 2) * s, (z - (d - 1) / 2) * s)) := by
  refine ⟨rfl, fun hwh hwd => ?_⟩
  rw [← hwh, ← hwd]
  rfl

/-- Witness for `position_uses_width_offset` at `x=1, y=2, z=3`,
`w = h = d = 5`, spacing 2. -/
theorem position_uses_width_offset_witness :
    ((5 : ℚ) = 5 ∧ (5 : ℚ) = 5) ∧
    (calculateCellPosition 1 2 3 5 5 5 2 =
      ((1 - ((5 : ℚ) - 1) / 2) * 2, (2 - ((5 : ℚ) - 1) / 2) * 2,
        (3 - ((5 : ℚ) - 1) / 2) * 2) ∧
    ((5 : ℚ) = 5 → (5 : ℚ) = 5 → calculateCellPosition 1 2 3 5 5 5 2 =
      ((1 - ((5 : ℚ) - 1) / 2) * 2, (2 - ((5 : ℚ) - 1) / 2) * 2,
        (3 - ((5 : ℚ) - 1) / 2) * 2))) :=
  ⟨⟨rfl, rfl⟩, position_uses_width_offset 1 2 3 5 5 5 2⟩

/-- State used to refute the resize-rejection claim: non-empty history and a
non-empty lattice. -/
def resizeSample : GameState :=
  { grid := [[1]], history := [[[0]]], playbackIndex := none, generation := 5 }

/-- C8 counterexample: `handleSizeChange` with the non-positive dimensions
`(0, 0)` does not reject the request — it clears the history (and replaces
the lattice), so the state is not left unchanged. -/
theorem resize_reject_counterexample :
    (handleSizeChange resizeSample 0 0).history ≠ resizeSample.history ∧
    (handleSizeChange resizeSample 0 0).grid ≠ resizeSample.grid := by
  constructor <;> decide

/-- C8 amended: `handleSizeChange` performs no up-front validation and never
leaves the state unchanged — it always clears the history and preview
pointer first. What happens next depends on the dimensions: for `r ≤ 0`
(any `c`) the allocation yields the empty lattice (`Array.from` clamps a
non-positive row count to 0 and never invokes the row builder), which
replaces the lattice, and the generation counter is reset; for `r > 0` and
`c ≥ 0` it likewise completes with an `r x c` empty lattice; but for
`r > 0` and `c < 0` the row builder `Array(cols)` throws a `RangeError`
mid-function, so the lattice and the generation counter keep their old
values while the history is already gone. -/
theorem resize_no_validation (s : GameState) (r c : Int) :
    (handleSizeChange s r c).history = [] ∧
    (handleSizeChange s r c).playbackIndex = none ∧
    (r ≤ 0 → generateEmptyGrid r c = some [] ∧
      handleSizeChange s r c =
        { grid := [], history := [], playbackIndex := none,
          generation := 0 }) ∧
    (0 < r → 0 ≤ c →
      generateEmptyGrid r c =
        some (List.replicate r.toNat (List.replicate c.toNat 0)) ∧
      handleSizeChange s r c =
        { grid := List.replicate r.toNat (List.replicate c.toNat 0),
          history := [], playbackIndex := none, generation := 0 }) ∧
    (0 < r → c < 0 → generateEmptyGrid r c = none ∧
      (handleSizeChange s r c).grid = s.grid ∧
      (handleSizeChange s r c).generation = s.generation) := by
  by_cases hr : r ≤ 0
  · have hg : generateEmptyGrid r c = some [] := by
      unfold generateEmptyGrid
      rw [if_pos hr]
    refine ⟨?_, ?_, fun _ => ⟨hg, ?_⟩, fun hr0 _ => absurd hr0 (by omega),
      fun hr0 _ => absurd hr0 (by omega)⟩ <;>
      simp [handleSizeChange, hg]
  · by_cases hc : c < 0
    · have hg : generateEmptyGrid r c = none := by
        unfold generateEmptyGrid
        rw [if_neg hr, if_pos hc]
      refine ⟨?_, ?_, fun hr0 => absurd hr0 hr,
        fun _ hc0 => absurd hc (by omega), fun _ _ => ⟨hg, ?_, ?_⟩⟩ <;>
        simp [handleSizeChange, hg]
    · have hg : generateEmptyGrid r c =
          some (List.replicate r.toNat (List.replicate c.toNat 0)) := by
        unfold generateEmptyGrid
        rw [if_neg hr, if_neg hc]
      refine ⟨?_, ?_, fun hr0 => absurd hr0 hr, fun _ _ => ⟨hg, ?_⟩,
        fun _ hc0 => absurd hc0 hc⟩ <;>
        simp [handleSizeChange, hg]

/-- Witness for `resize_no_validation` at `r = 1`, `c = -1`: the allocation
throws, so the history is cleared but the lattice and generation counter
survive. -/
theorem resize_no_validation_witness :
    ((0 : Int) < 1 ∧ (-1 : Int) < 0) ∧
    ((handleSizeChange resizeSample 1 (-1)).history = [] ∧
    (handleSizeChange resizeSample 1 (-1)).playbackIndex = none ∧
    (generateEmptyGrid 1 (-1) = none ∧
      (handleSizeChange resizeSample 1 (-1)).grid = resizeSample.grid ∧
      (handleSizeChange resizeSample 1 (-1)).generation =
        resizeSample.generation)) :=
  ⟨⟨by decide, by decide⟩,
    ⟨(resize_no_validation resizeSample 1 (-1)).1,
     (resize_no_validation resizeSample 1 (-1)).2.1,
     (resize_no_validation resizeSample 1 (-1)).2.2.2.2
       (by decide) (by decide)⟩⟩

/-- State used to refute the scrub generation arithmetic: generation counter
already 0 (reachable: `handleClear` pushes a frame and sets the counter to
0) with one stored frame. -/
def scrubSample : GameStateV1 :=
  { grid := [[1]], history := [[[0]]], generation := 0 }

/-- C5 counterexample: scrubbing to index 0 from a one-frame history with
generation 0 leaves the counter at 0 (the `Math.max(0, ...)` clamp), whereas
the claimed unclamped decrease by `length - index = 1` would give -1. -/
theorem scrub_generation_counterexample :
    (handleScrub scrubSample 0).generation ≠
      scrubSample.generation - ((scrubSample.history.length : Int) - 0) := by
  decide

/-- C5 amended: for an in-range index `i`, `handleScrub` truncates the
buffer to the frames strictly before `i` (so every frame at position `i` or
later is gone from the buffer — the frame at `i` is moved out to become the
current lattice), and the generation counter decreases by the delta between
the buffer length before the scrub and `i`, clamped below at 0. -/
theorem scrub_destructive_rewind (s : GameStateV1) (i : Nat)
    (hi : i < s.history.length) :
    (handleScrub s i).history = s.history.take i ∧
    (handleScrub s i).history.length = i ∧
    (handleScrub s i).grid = s.history.getD i [] ∧
    (handleScrub s i).generation =
      max 0 (s.generation - ((s.history.length : Int) - (i : Int))) := by
  unfold handleScrub
  rw [if_pos hi]
  refine ⟨rfl, ?_, rfl, rfl⟩
  simp [Nat.min_eq_left (Nat.le_of_lt hi)]

/-- Witness for `scrub_destructive_rewind`: scrubbing to index 1 of a
two-frame history with generation 7. -/
def scrubSample2 : GameStateV1 :=
  { grid := [[9]], history := [[[3]], [[4]]], generation := 7 }

theorem scrub_destructive_rewind_witness :
    (1 < scrubSample2.history.length) ∧
    ((handleScrub scrubSample2 1).history = scrubSample2.history.take 1 ∧
    (handleScrub scrubSample2 1).history.length = 1 ∧
    (handleScrub scrubSample2 1).grid = scrubSample2.history.getD 1 [] ∧
    (handleScrub scrubSample2 1).generation =
      max 0 (scrubSample2.generation -
        ((scrubSample2.history.length : Int) - (1 : Int)))) :=
  ⟨by decide, scrub_destructive_rewind scrubSample2 1 (by decide)⟩

theorem pushFrame_length_le (hist : List GridType) (g : GridType)
    (hc : hist.length ≤ 100) : (pushFrame hist g).length ≤ 100 := by
  unfold pushFrame
  dsimp only
  split
  · simpa using hc
  · rename_i hlt
    simp at hlt ⊢
    omega

theorem foldl_pushFrame_length_le (fs : List GridType) (hist : List GridType)
    (hc : hist.length ≤ 100) : (fs.foldl pushFrame hist).length ≤ 100 := by
  induction fs generalizing hist with
  | nil => exact hc
  | cons f fs ih => exact ih (pushFrame hist f) (pushFrame_length_le hist f hc)

/-- A distinct frame per push, to make "the oldest frame is no longer
retrievable" meaningful. -/
def numberedFrame (n : Nat) : GridType := [[n]]

set_option maxRecDepth 8000 in
/-- C6: starting from an empty buffer, the history length never exceeds 100
after any sequence of pushes; a push onto a full buffer of 100 frames drops
the oldest frame and appends the new one (FIFO); and after pushing 150
distinct frames the buffer holds exactly the last 100 of them — length 100,
with the first of the 150 no longer present. -/
theorem history_bound (fs : List GridType) (hist : List GridType)
    (g : GridType) (hfull : hist.length = 100) :
    (fs.foldl pushFrame []).length ≤ 100 ∧
    pushFrame hist g = hist.tail ++ [g] ∧
    ((List.range 150).map numberedFrame).foldl pushFrame [] =
      (((List.range 150).map numberedFrame).drop 50) ∧
    (((List.range 150).map numberedFrame).foldl pushFrame []).length = 100 ∧
    numberedFrame 0 ∉ ((List.range 150).map numberedFrame).foldl pushFrame [] := by
  refine ⟨foldl_pushFrame_length_le fs [] (by simp), ?_, ?_, ?_, ?_⟩
  · unfold pushFrame
    dsimp only
    rw [if_pos (by simp [hfull])]
    cases hist with
    | nil => simp at hfull
    | cons a t => simp
  · decide
  · decide
  · decide

set_option maxRecDepth 8000 in
/-- Witness for `history_bound`: pushing onto a full buffer of 100 copies of
`[[1]]`. -/
theorem history_bound_witness :
    ((List.replicate 100 ([[1]] : GridType)).length = 100) ∧
    (((List.replicate 3 ([[7]] : GridType)).foldl pushFrame []).length ≤ 100 ∧
    pushFrame (List.replicate 100 ([[1]] : GridType)) [[2]] =
      (List.replicate 100 ([[1]] : GridType)).tail ++ [[[2]]] ∧
    ((List.range 150).map numberedFrame).foldl pushFrame [] =
      (((List.range 150).map numberedFrame).drop 50) ∧
    (((List.range 150).map numberedFrame).foldl pushFrame []).length = 100 ∧
    numberedFrame 0 ∉ ((List.range 150).map numberedFrame).foldl pushFrame []) :=
  ⟨by decide,
    history_bound (List.replicate 3 [[7]]) (List.replicate 100 [[1]]) [[2]]
      (by decide)⟩

theorem pushFrame_getLast? (hist : List GridType) (g : GridType) :
    (pushFrame hist g).getLast? = some g := by
  unfold pushFrame
  dsimp only
  split
  · rename_i hlt
    cases hist with
    | nil => simp at hlt
    | cons a t => simp
  · simp

/-- C7: a generation step (which records the pre-step lattice in the
history) followed by undo restores the current lattice exactly — every
cell's age is identical (frames are deep copies, so the popped frame is the
pushed value itself). -/
theorem step_undo_inverse (s : GameState) (rule : RuleSet)
    (hg : s.grid ≠ []) :
    (handleUndo (runStep2D s rule)).grid = s.grid := by
  unfold runStep2D
  rw [if_neg (by simpa using hg)]
  unfold addToHistory
  cases hp : s.playbackIndex with
  | none => simp [handleUndo, pushFrame_getLast?]
  | some p => simp [handleUndo, pushFrame_getLast?]

/-- State used to instantiate the undo claim. -/
def undoSample : GameState :=
  { grid := [[0, 1], [1, 1]], history := [[[5]]], playbackIndex := none,
    generation := 3 }

/-- Witness for `step_undo_inverse`: one Conway step and an undo on a 2x2
lattice. -/
theorem step_undo_inverse_witness :
    (undoSample.grid ≠ []) ∧
    (handleUndo (runStep2D undoSample conwayRule)).grid = undoSample.grid :=
  ⟨by decide, step_undo_inverse undoSample conwayRule (by decide)⟩

theorem getD_range_map {β : Type} (n : Nat) (f : Nat → β) (i : Nat)
    (hi : i < n) (d : β) : ((List.range n).map f).getD i d = f i := by
  simp [List.getD_eq_getElem?_getD, List.getElem?_map, List.getElem?_range hi]

theorem cellAt_stepGrid (g : GridType) (rule : RuleSet) (i k : Nat)
    (hi : i < g.length) (hk : k < (g.headD []).length) :
    cellAt (stepGrid g rule) i k =
      if 0 < cellAt g i k then
        if rule.survive.contains (neighborCount2D g i k) then
          cellAt g i k + 1
        else 0
      else
        if rule.born.contains (neighborCount2D g i k) then 1
        else cellAt g i k := by
  show ((stepGrid g rule).getD i []).getD k 0 = _
  unfold stepGrid
  rw [getD_range_map _ _ _ hi, getD_range_map _ _ _ hk]

/-- C2: in one 2D toroidal generation step, each cell's neighbor count is
the number of live (age > 0) cells found at its 8 Moore offsets with
coordinates wrapped modulo (rows, cols) (this is `neighborCount2D`); the
resulting cell is alive iff it was alive with its count in `survive`, or
dead with its count in `born`; newly born cells get age exactly 1 and
non-surviving live cells get age 0. -/
theorem step2D_cell_rule (g : GridType) (rule : RuleSet) (i k : Nat)
    (hi : i < g.length) (hk : k < (g.headD []).length) :
    (0 < cellAt (stepGrid g rule) i k ↔
      ((0 < cellAt g i k ∧ neighborCount2D g i k ∈ rule.survive) ∨
       (cellAt g i k = 0 ∧ neighborCount2D g i k ∈ rule.born))) ∧
    (cellAt g i k = 0 → neighborCount2D g i k ∈ rule.born →
      cellAt (stepGrid g rule) i k = 1) ∧
    (0 < cellAt g i k → neighborCount2D g i k ∉ rule.survive →
      cellAt (stepGrid g rule) i k = 0) := by
  rw [cellAt_stepGrid g rule i k hi hk]
  by_cases hv : 0 < cellAt g i k
  · by_cases hsv : neighborCount2D g i k ∈ rule.survive
    · simp [hv, hsv]
      all_goals omega
    · simp [hv, hsv]
      all_goals omega
  · by_cases hbn : neighborCount2D g i k ∈ rule.born
    · simp [hv, hbn]
      all_goals omega
    · simp [hv, hbn]
      all_goals omega

/-- Lattice used to instantiate the 2D step claim. -/
def stepSample : GridType := [[1, 1], [1, 0]]

/-- Witness for `step2D_cell_rule` at cell (0,0) of a 2x2 lattice under the
Conway rule. -/
theorem step2D_cell_rule_witness :
    (0 < stepSample.length ∧ 0 < (stepSample.headD []).length) ∧
    ((0 < cellAt (stepGrid stepSample conwayRule) 0 0 ↔
      ((0 < cellAt stepSample 0 0 ∧
        neighborCount2D stepSample 0 0 ∈ conwayRule.survive) ∨
       (cellAt stepSample 0 0 = 0 ∧
        neighborCount2D stepSample 0 0 ∈ conwayRule.born))) ∧
    (cellAt stepSample 0 0 = 0 →
      neighborCount2D stepSample 0 0 ∈ conwayRule.born →
      cellAt (stepGrid stepSample conwayRule) 0 0 = 1) ∧
    (0 < cellAt stepSample 0 0 →
      neighborCount2D stepSample 0 0 ∉ conwayRule.survive →
      cellAt (stepGrid stepSample conwayRule) 0 0 = 0)) :=
  ⟨⟨by decide, by decide⟩,
    step2D_cell_rule stepSample conwayRule 0 0 (by decide) (by decide)⟩

theorem interiorDead_runStep3D (w h d : Nat) (rule : RuleSet) (g : Grid3) :
    InteriorDead w h d (runStep3D w h d rule g) := by
  intro x hx y hy z hz hns
  unfold runStep3D
  rw [if_pos (getIndex_lt x y z w h d hx hy hz)]
  dsimp only
  rw [getCoords_getIndex x y z w h hx hy]
  simp [hns]

theorem interiorDead_handleToggleCell (w h d : Nat) (g : Grid3)
    (x y z : Nat) (hx : x < w) (hy : y < h)
    (hg : InteriorDead w h d g) :
    InteriorDead w h d (handleToggleCell w h d g x y z) := by
  intro x' hx' y' hy' z' hz' hns'
  unfold handleToggleCell
  cases hs : isShell x y z w h d with
  | false => exact hg x' hx' y' hy' z' hz' hns'
  | true =>
    rw [if_pos rfl]
    by_cases he : getIndex x' y' z' w h = getIndex x y z w h
    · obtain ⟨e1, e2, e3⟩ := getIndex_inj hx' hy' hx hy he
      rw [e1, e2, e3] at hns'
      rw [hns'] at hs
      exact absurd hs (by simp)
    · show (if getIndex x' y' z' w h = getIndex x y z w h then _ else
        g (getIndex x' y' z' w h)) = 0
      rw [if_neg he]
      exact hg x' hx' y' hy' z' hz' hns'

theorem interiorDead_applyOps3D (w h d : Nat) (ops : List Op3D) (g : Grid3)
    (hg : InteriorDead w h d g) (hops : ∀ op ∈ ops, OpInRange w h d op) :
    InteriorDead w h d (applyOps3D w h d ops g) := by
  induction ops generalizing g with
  | nil => exact hg
  | cons op ops ih =>
    have h1 : OpInRange w h d op := hops op (List.mem_cons_self op ops)
    have h2 : ∀ o ∈ ops, OpInRange w h d o := fun o ho =>
      hops o (List.mem_cons_of_mem op ho)
    show InteriorDead w h d (applyOps3D w h d ops (applyOp3D w h d g op))
    refine ih (applyOp3D w h d g op) ?_ h2
    cases op with
    | step rule => exact interiorDead_runStep3D w h d rule g
    | toggle x y z =>
      obtain ⟨hx, hy, hz⟩ := h1
      exact interiorDead_handleToggleCell w h d g x y z hx hy hg

theorem countNeighbors3D_maskShell (w h d : Nat) (g : Grid3) (x y z : Nat) :
    countNeighbors3D g w h d x y z =
      countNeighbors3D (maskShell w h d g) w h d x y z := by
  unfold countNeighbors3D
  apply countP_congr_on
  intro delta _
  unfold neighborHit3D
  dsimp only
  split
  · rfl
  · split
    · rfl
    · rename_i hbnd
      push_neg at hbnd
      obtain ⟨h1, h2, h3, h4, h5, h6⟩ := hbnd
      set nx := (x : Int) + delta.1 with hnx
      set ny := (y : Int) + delta.2.1 with hny
      set nz := (z : Int) + delta.2.2 with hnz
      have hxw : nx.toNat < w := by omega
      have hyh : ny.toNat < h := by omega
      have hzd : nz.toNat < d := by omega
      have hmask : maskShell w h d g (getIndex nx.toNat ny.toNat nz.toNat w h) =
          if isShell nx.toNat ny.toNat nz.toNat w h d then
            g (getIndex nx.toNat ny.toNat nz.toNat w h)
          else 0 := by
        unfold maskShell
        rw [if_pos (getIndex_lt _ _ _ w h d hxw hyh hzd)]
        dsimp only
        rw [getCoords_getIndex _ _ _ w h hxw hyh]
      cases hs : isShell nx.toNat ny.toNat nz.toNat w h d with
      | false => simp [hs]
      | true =>
        rw [hs] at hmask
        rw [if_pos rfl] at hmask
        rw [hmask]

/-- C4: starting from a lattice whose interior is dead, any sequence of
shell steps and (in-range) cell toggles leaves every interior in-range slot
at age 0; toggling a non-shell coordinate leaves the lattice unchanged; and
the step's neighbor counter reads the lattice only through its shell slots
(masking all interior slots to 0 does not change any count). -/
theorem shell_containment (w h d : Nat) (g : Grid3) (ops : List Op3D)
    (x y z x' y' z' : Nat)
    (hg : InteriorDead w h d g) (hops : ∀ op ∈ ops, OpInRange w h d op)
    (hx : x < w) (hy : y < h) (hz : z < d)
    (hns : isShell x y z w h d = false) :
    applyOps3D w h d ops g (getIndex x y z w h) = 0 ∧
    handleToggleCell w h d g x y z = g ∧
    countNeighbors3D g w h d x' y' z' =
      countNeighbors3D (maskShell w h d g) w h d x' y' z' := by
  refine ⟨interiorDead_applyOps3D w h d ops g hg hops x hx y hy z hz hns,
    ?_, countNeighbors3D_maskShell w h d g x' y' z'⟩
  unfold handleToggleCell
  simp [hns]

/-- The all-dead 3D lattice. -/
def zeroGrid3 : Grid3 := fun _ => 0

/-- Interaction sequence used to instantiate the containment claim: one
Conway step followed by a toggle of the shell corner `(0,0,0)`. -/
def containSampleOps : List Op3D :=
  [Op3D.step conwayRule, Op3D.toggle 0 0 0]

/-- Witness for `shell_containment`: a 3x3x3 lattice, the interior
coordinate `(1,1,1)` and the shell coordinate `(0,0,0)`. -/
theorem shell_containment_witness :
    (InteriorDead 3 3 3 zeroGrid3 ∧
      (∀ op ∈ containSampleOps, OpInRange 3 3 3 op) ∧
      isShell 1 1 1 3 3 3 = false) ∧
    (applyOps3D 3 3 3 containSampleOps zeroGrid3 (getIndex 1 1 1 3 3) = 0 ∧
    handleToggleCell 3 3 3 zeroGrid3 1 1 1 = zeroGrid3 ∧
    countNeighbors3D zeroGrid3 3 3 3 0 0 0 =
      countNeighbors3D (maskShell 3 3 3 zeroGrid3) 3 3 3 0 0 0) :=
  ⟨⟨by decide, by decide, by decide⟩,
    shell_containment 3 3 3 zeroGrid3 containSampleOps 1 1 1 0 0 0
      (by decide) (by decide) (by decide) (by decide) (by decide) (by decide)⟩

/-- Round-trip in the other direction: `getIndex (getCoords i) = i`. -/
theorem getIndex_getCoords (i w h : Nat) :
    getIndex (getCoords i w h).1 (getCoords i w h).2.1
      (getCoords i w h).2.2 w h = i := by
  unfold getIndex getCoords
  dsimp only
  have e1 : i % (w * h) % w + i % (w * h) / w * w = i % (w * h) :=
    Nat.mod_add_div' (i % (w * h)) w
  have e2 : i % (w * h) + i / (w * h) * (w * h) = i := Nat.mod_add_div' i (w * h)
  have e3 : i / (w * h) * w * h = i / (w * h) * (w * h) := by ring
  omega

/-- 2D lattice with a single live cell of the given age at (0,0) on a 3x3
torus; under "Life without Death" the cell survives forever (its neighbor
count is 0) and nothing is ever born. -/
def singleGrid2 (a : Nat) : GridType := [[a, 0, 0], [0, 0, 0], [0, 0, 0]]

/-- A rule under which an isolated cell always survives: neighbor count 0 is
in `survive` and nothing is born. -/
def alwaysSurviveRule : RuleSet :=
  { name := "Always Survive", born := [], survive := [0] }

/-- 3D lattice with a single live cell of the given age at linear index 0
(the shell corner (0,0,0)). -/
def single3 (a : Nat) : Grid3 := fun i => if i = 0 then a else 0

theorem stepGrid_singleGrid2 (a : Nat) :
    stepGrid (singleGrid2 (a + 1)) lifeWithoutDeathRule =
      singleGrid2 (a + 2) := by
  have hr : List.range 3 = [0, 1, 2] := rfl
  simp [stepGrid, singleGrid2, neighborCount2D, OPERATIONS, cellAt, wrapIdx,
    lifeWithoutDeathRule, List.countP_cons, List.countP_nil, hr]

theorem iter_stepGrid_singleGrid2 (n : Nat) :
    (fun g => stepGrid g lifeWithoutDeathRule)^[n] (singleGrid2 1) =
      singleGrid2 (n + 1) := by
  induction n with
  | zero => rfl
  | succ n ih =>
    rw [Function.iterate_succ_apply', ih]
    exact stepGrid_singleGrid2 n

theorem runStep3D_single3 (a : Nat) :
    runStep3D 32 32 32 alwaysSurviveRule (single3 (a + 1)) =
      single3 (min (a + 2) 255) := by
  funext i
  by_cases hi : i = 0
  · subst hi
    have hcount : countNeighbors3D (single3 (a + 1)) 32 32 32 0 0 0 = 0 := by
      with_unfolding_all rfl
    unfold runStep3D
    simp [single3, alwaysSurviveRule, hcount, getCoords, isShell, getIndex]
  · have hrhs : single3 (min (a + 2) 255) i = 0 := by simp [single3, hi]
    rw [hrhs]
    unfold runStep3D
    dsimp only
    split
    · rw [getIndex_getCoords i 32 32]
      split
      · rw [show single3 (a + 1) i = 0 from by simp [single3, hi]]
        simp [alwaysSurviveRule]
      · rfl
    · rfl

theorem iter_runStep3D_single3 (n : Nat) :
    (runStep3D 32 32 32 alwaysSurviveRule)^[n] (single3 1) =
      single3 (min (n + 1) 255) := by
  induction n with
  | zero => norm_num
  | succ n ih =>
    rw [Function.iterate_succ_apply', ih]
    obtain ⟨b, hb⟩ : ∃ b, min (n + 1) 255 = b + 1 :=
      ⟨min (n + 1) 255 - 1, by omega⟩
    rw [hb, runStep3D_single3 b]
    have harg : min (b + 2) 255 = min (n + 1 + 1) 255 := by omega
    rw [harg]

/-- C1 counterexample: in the 2D engine (`GameOfLife.tsx:341`, `newGrid[i][k]
+= 1` with no cap) a cell alive for 300 consecutive generations has age 301,
exceeding 255 — the claimed saturation does not exist in the 2D engine. -/
theorem age_cap_counterexample :
    cellAt ((fun g => stepGrid g lifeWithoutDeathRule)^[300]
      (singleGrid2 1)) 0 0 = 301 ∧
    255 < cellAt ((fun g => stepGrid g lifeWithoutDeathRule)^[300]
      (singleGrid2 1)) 0 0 := by
  rw [iter_stepGrid_singleGrid2 300]
  refine ⟨rfl, ?_⟩
  rw [show cellAt (singleGrid2 301) 0 0 = 301 from rfl]
  norm_num

/-- C1 amended: a surviving 2D cell's age is incremented by exactly 1 per
step with no cap — after 300 consecutive surviving generations from age 1
its age is 301, not 255; only the 3D shell engine saturates
(`Math.min(age + 1, 255)`), where the same experiment yields exactly 255. -/
theorem age_cap_amended :
    (∀ (g : GridType) (rule : RuleSet) (i k : Nat), i < g.length →
      k < (g.headD []).length → 0 < cellAt g i k →
      rule.survive.contains (neighborCount2D g i k) = true →
      cellAt (stepGrid g rule) i k = cellAt g i k + 1) ∧
    cellAt ((fun g => stepGrid g lifeWithoutDeathRule)^[300]
      (singleGrid2 1)) 0 0 = 301 ∧
    (runStep3D 32 32 32 alwaysSurviveRule)^[300] (single3 1)
      (getIndex 0 0 0 32 32) = 255 := by
  refine ⟨?_, ?_, ?_⟩
  · intro g rule i k hi hk hv hs
    rw [cellAt_stepGrid g rule i k hi hk, if_pos hv, if_pos hs]
  · rw [iter_stepGrid_singleGrid2 300]
    rfl
  · rw [iter_runStep3D_single3 300]
    norm_num [single3, getIndex]

/-- Lattice used to instantiate the per-step age-increment conjunct. -/
def ageSample : GridType := [[2, 0], [0, 0]]

/-- Witness for `age_cap_amended`: the 2D per-step increment at cell (0,0)
of a 2x2 lattice under "Life without Death". -/
theorem age_cap_amended_witness :
    (0 < ageSample.length ∧ 0 < (ageSample.headD []).length ∧
      0 < cellAt ageSample 0 0 ∧
      lifeWithoutDeathRule.survive.contains
        (neighborCount2D ageSample 0 0) = true) ∧
    cellAt (stepGrid ageSample lifeWithoutDeathRule) 0 0 =
      cellAt ageSample 0 0 + 1 :=
  ⟨⟨by decide, by decide, by decide, by decide⟩,
    age_cap_amended.1 ageSample lifeWithoutDeathRule 0 0 (by decide)
      (by decide) (by decide) (by decide)⟩
